import Mathlib

/-!
Verification of the recovery core of bongo_cat_monitor.

The embedding follows the Electron main process (app.js: power-management
handlers, resume-reconnect and keyboard-recovery supervisors, the stats
forwarding tick and the connection-change routing) and the SystemMonitor
class (src/system-monitor.js).  The serial and keyboard collaborators are
external modules whose code is not part of the repository snapshot; the
few state effects of theirs that the supervisors observe are modelled
from the specification and marked as such in their doc comments.

Timers are modelled explicitly: the event loop keeps a list of live
timeout entries (id, kind, delay); clearTimeout removes an entry by id,
setTimeout inserts a fresh id.  The module-level timer variables
(resumeReconnectTimer, keyboardRecoveryTimer) hold an optional id, which
may go stale after a timer fires, exactly as the JS handles do.
-/

/-- Retry constants from app.js lines 489 to 494. -/
def RESUME_RETRY_BASE_DELAY_MS : Nat := 1000

/-- Maximum delay for resume reconnection backoff. -/
def RESUME_RETRY_MAX_DELAY_MS : Nat := 30000

/-- Attempt limit for resume reconnection. -/
def RESUME_RETRY_LIMIT : Nat := 10

/-- Base delay for keyboard recovery backoff. -/
def KEYBOARD_RECOVERY_BASE_DELAY_MS : Nat := 2000

/-- Maximum delay for keyboard recovery backoff. -/
def KEYBOARD_RECOVERY_MAX_DELAY_MS : Nat := 60000

/-- Attempt limit for keyboard recovery. -/
def KEYBOARD_RECOVERY_LIMIT : Nat := 5

/-- Fields of the typing session object that the supervised restart
snapshots and splices (app.js lines 813 to 825).  The wpm field stands for
the session state that the splice deliberately does not copy. -/
structure TypingSession where
  totalKeystrokes : Nat
  startTime : Option Nat
  lastKeystrokeTime : Nat
  wpm : Nat
  deriving DecidableEq, Repr

/-- Outcome chosen by the environment for one stopMonitoring plus
startMonitoring round trip on the keyboard collaborator: whether
startMonitoring resolved, the timestamp seeding the fresh session, and
whether fallback mode is engaged afterwards. -/
structure KbStartOutcome where
  success : Bool
  now : Nat
  fallbackAfter : Bool
  deriving DecidableEq, Repr

/-- Modelled from the spec: the keyboard collaborator
(src/keyboard-monitor.js is not in the snapshot) exposes currentSession,
keyboardListener (listenerAlive stands for a live process handle with a
kill method), fallbackMode and an isActive method, all inspected by the
supervisors in app.js. -/
structure KeyboardMonitor where
  currentSession : Option TypingSession
  listenerAlive : Bool
  fallbackMode : Bool
  isActive : Bool
  deriving DecidableEq, Repr

/-- Modelled from the spec: stopMonitoring kills the listener process and
marks monitoring inactive. -/
def kbStop (k : KeyboardMonitor) : KeyboardMonitor :=
  { k with listenerAlive := false, isActive := false }

/-- Modelled from the spec: startMonitoring spawns the listener and creates
a new session object with fresh counters; when it throws, the monitor stays
stopped. -/
def kbStart (o : KbStartOutcome) (k : KeyboardMonitor) : KeyboardMonitor :=
  if o.success then
    { currentSession := some { totalKeystrokes := 0, startTime := some o.now,
                               lastKeystrokeTime := 0, wpm := 0 },
      listenerAlive := true, fallbackMode := o.fallbackAfter, isActive := true }
  else k

/-- Modelled from the spec: the serial collaborator status object returned
by getConnectionStatus. -/
structure SerialStatus where
  isConnected : Bool
  port : Option String
  deriving DecidableEq, Repr

/-- Kinds of single-shot timers armed by the recovery supervisors. -/
inductive TimerKind where
  | resumeReconnect
  | keyboardRecovery
  deriving DecidableEq, Repr

/-- A live timeout entry of the event loop. -/
structure Timer where
  id : Nat
  kind : TimerKind
  delay : Nat
  deriving DecidableEq, Repr

/-- Cached system stats snapshot (app.js line 653). -/
structure SysStats where
  cpu : Nat
  memory : Nat
  deriving DecidableEq, Repr

/-- Cached typing stats snapshot (app.js line 654). -/
structure TypStats where
  wpm : Nat
  isActive : Bool
  deriving DecidableEq, Repr

/-- One combined payload handed to sendCombinedStats. -/
structure CombinedPayload where
  sys : SysStats
  typing : TypStats
  deriving DecidableEq, Repr

/-- Module-level state of the main process relevant to the recovery core
(app.js lines 476 to 501 and the closure caches of setupEventForwarding),
together with the event loop timer queue and the observable state of the
two collaborators. -/
structure AppState where
  systemSuspended : Bool
  pendingResumePort : Option String
  resumeReconnectTimer : Option Nat
  resumeReconnectAttempts : Nat
  keyboardRecoveryTimer : Option Nat
  keyboardRecoveryAttempts : Nat
  nextTimerId : Nat
  liveTimers : List Timer
  serial : Option SerialStatus
  keyboard : Option KeyboardMonitor
  lastSystemStats : SysStats
  lastTypingStats : TypStats
  deriving DecidableEq, Repr

/-- Truthiness of an optional string field in JS: null, undefined and the
empty string are falsy. -/
def portTruthy : Option String → Bool
  | some p => p != ""
  | none => false

/-- The clearTimeout effect on the event loop queue: the entry with the
given id stops being live. -/
def clearTimerEntry (id : Nat) (q : List Timer) : List Timer :=
  q.filter (fun t => t.id != id)

/-- clearResumeReconnectTimer (app.js lines 731 to 736). -/
def clearResumeReconnectTimer (s : AppState) : AppState :=
  match s.resumeReconnectTimer with
  | none => s
  | some id =>
      { s with resumeReconnectTimer := none,
               liveTimers := clearTimerEntry id s.liveTimers }

/-- clearKeyboardRecoveryTimer (app.js lines 738 to 743). -/
def clearKeyboardRecoveryTimer (s : AppState) : AppState :=
  match s.keyboardRecoveryTimer with
  | none => s
  | some id =>
      { s with keyboardRecoveryTimer := none,
               liveTimers := clearTimerEntry id s.liveTimers }

/-- scheduleResumeReconnect (app.js lines 745 to 756): no-op while
suspended, otherwise cancels any pending timer and arms a fresh one. -/
def scheduleResumeReconnect (d : Nat) (s : AppState) : AppState :=
  if s.systemSuspended then s
  else
    let s1 := clearResumeReconnectTimer s
    { s1 with resumeReconnectTimer := some s1.nextTimerId,
              nextTimerId := s1.nextTimerId + 1,
              liveTimers := ⟨s1.nextTimerId, TimerKind.resumeReconnect, d⟩ :: s1.liveTimers }

/-- scheduleKeyboardRecovery (app.js lines 835 to 846): no-op while
suspended or with no keyboard monitor, otherwise cancels any pending timer
and arms a fresh one. -/
def scheduleKeyboardRecovery (d : Nat) (s : AppState) : AppState :=
  if s.systemSuspended || s.keyboard.isNone then s
  else
    let s1 := clearKeyboardRecoveryTimer s
    { s1 with keyboardRecoveryTimer := some s1.nextTimerId,
              nextTimerId := s1.nextTimerId + 1,
              liveTimers := ⟨s1.nextTimerId, TimerKind.keyboardRecovery, d⟩ :: s1.liveTimers }

/-- Environment responses consumed by one resume reconnect attempt: the
list of enumerated port paths and whether connectToDevice resolves. -/
structure ResumeEnv where
  ports : List String
  connectSuccess : Bool
  deriving DecidableEq, Repr

/-- attemptResumeReconnect (app.js lines 758 to 800). -/
def attemptResumeReconnect (e : ResumeEnv) (s : AppState) : AppState :=
  match s.pendingResumePort, s.serial with
  | some p, some st =>
      if s.systemSuspended then s
      else if st.isConnected then
        clearResumeReconnectTimer
          { s with pendingResumePort := none, resumeReconnectAttempts := 0 }
      else
        let n := s.resumeReconnectAttempts + 1
        let s1 := { s with resumeReconnectAttempts := n }
        if e.ports.contains p && e.connectSuccess then
          clearResumeReconnectTimer
            { s1 with pendingResumePort := none, resumeReconnectAttempts := 0,
                      serial := some { isConnected := true, port := some p } }
        else if RESUME_RETRY_LIMIT ≤ n then
          clearResumeReconnectTimer s1
        else
          scheduleResumeReconnect
            (Nat.min (RESUME_RETRY_BASE_DELAY_MS * 2 ^ (n - 1)) RESUME_RETRY_MAX_DELAY_MS) s1
  | _, _ => s

/-- Results of restartKeyboardMonitoring as seen by its callers. -/
inductive RestartOutcome where
  | ok
  | errNoMonitor
  | errStartFailed
  deriving DecidableEq, Repr

/-- restartKeyboardMonitoring (app.js lines 802 to 833): unless forced, a
restart is skipped when the monitor is not active; otherwise the previous
session is snapshotted, the listener is stopped and started, and on
success the snapshot counters are spliced into the new session before the
recovery counter and timer are reset. -/
def restartKeyboardMonitoring (force : Bool) (o : KbStartOutcome) (s : AppState) :
    AppState × RestartOutcome :=
  match s.keyboard with
  | none => (s, RestartOutcome.errNoMonitor)
  | some k =>
      if !force && !k.isActive then (s, RestartOutcome.ok)
      else
        let previousSession := k.currentSession
        let k2 := kbStart o (kbStop k)
        if o.success then
          let k3 :=
            match previousSession, k2.currentSession with
            | some ps, some cs =>
                let cs2 : TypingSession :=
                  { cs with totalKeystrokes := ps.totalKeystrokes,
                            startTime := ps.startTime,
                            lastKeystrokeTime := ps.lastKeystrokeTime }
                { k2 with currentSession := some cs2 }
            | _, _ => k2
          (clearKeyboardRecoveryTimer
            { s with keyboard := some k3, keyboardRecoveryAttempts := 0 },
           RestartOutcome.ok)
        else
          ({ s with keyboard := some k2 }, RestartOutcome.errStartFailed)

/-- attemptKeyboardRecovery (app.js lines 848 to 884). -/
def attemptKeyboardRecovery (o : KbStartOutcome) (s : AppState) : AppState :=
  if s.systemSuspended then s
  else
    match s.keyboard with
    | none => s
    | some k =>
        if k.listenerAlive && !k.fallbackMode then
          { clearKeyboardRecoveryTimer s with keyboardRecoveryAttempts := 0 }
        else
          let n := s.keyboardRecoveryAttempts + 1
          let k1 := kbStart o (kbStop k)
          let s1 := { s with keyboardRecoveryAttempts := n, keyboard := some k1 }
          if o.success then
            clearKeyboardRecoveryTimer { s1 with keyboardRecoveryAttempts := 0 }
          else if KEYBOARD_RECOVERY_LIMIT ≤ n then
            clearKeyboardRecoveryTimer s1
          else
            scheduleKeyboardRecovery
              (Nat.min (KEYBOARD_RECOVERY_BASE_DELAY_MS * 2 ^ (n - 1))
                KEYBOARD_RECOVERY_MAX_DELAY_MS) s1

/-- Suspend handler (app.js lines 893 to 915): sets the suspended flag,
cancels the resume reconnect timer, resets its counter, then records the
current port as pendingResumePort and disconnects when connected. -/
def onSuspend (s : AppState) : AppState :=
  let s1 := clearResumeReconnectTimer { s with systemSuspended := true }
  let s2 := { s1 with resumeReconnectAttempts := 0 }
  match s2.serial with
  | none => s2
  | some st =>
      if st.isConnected && portTruthy st.port then
        { s2 with pendingResumePort := st.port,
                  serial := some { st with isConnected := false } }
      else if portTruthy st.port then
        { s2 with pendingResumePort := st.port }
      else s2

/-- Resume handler (app.js lines 917 to 929): clears the suspended flag,
resets the reconnect counter, schedules a reconnect when a pending port
exists, then attempts a non-forced keyboard restart whose errors are
swallowed. -/
def onResume (o : KbStartOutcome) (s : AppState) : AppState :=
  let s1 := { s with systemSuspended := false, resumeReconnectAttempts := 0 }
  let s2 :=
    if portTruthy s1.pendingResumePort && s1.serial.isSome then
      scheduleResumeReconnect RESUME_RETRY_BASE_DELAY_MS s1
    else s1
  (restartKeyboardMonitoring false o s2).fst

/-- Handler for the keyboard-fallback event (app.js lines 678 to 684).  The
event is emitted by the keyboard collaborator when it enters fallback mode,
so the collaborator state is marked fallback before the handler schedules a
recovery attempt (the marking is modelled from the spec). -/
def onKeyboardFallback (s : AppState) : AppState :=
  let s1 :=
    match s.keyboard with
    | some k => { s with keyboard := some { k with fallbackMode := true } }
    | none => s
  scheduleKeyboardRecovery KEYBOARD_RECOVERY_BASE_DELAY_MS s1

/-- Manual restart IPC handler (app.js lines 1178 to 1199): resets the
recovery counter, cancels the timer, forces a restart, and schedules a
recovery attempt when fallback mode is still engaged or the restart threw. -/
def manualRestartKeyboard (o : KbStartOutcome) (s : AppState) : AppState :=
  match s.keyboard with
  | none => s
  | some _ =>
      let s1 := clearKeyboardRecoveryTimer { s with keyboardRecoveryAttempts := 0 }
      let r := restartKeyboardMonitoring true o s1
      match r.snd with
      | RestartOutcome.ok =>
          let fallbackActive :=
            match r.fst.keyboard with
            | some k => k.fallbackMode
            | none => false
          if fallbackActive then
            scheduleKeyboardRecovery KEYBOARD_RECOVERY_BASE_DELAY_MS r.fst
          else r.fst
      | _ => scheduleKeyboardRecovery KEYBOARD_RECOVERY_BASE_DELAY_MS r.fst

/-- Connection-change routing (app.js lines 643 to 650): a connected event
with a truthy port records that port as pendingResumePort. -/
def routeConnectionChange (connected : Bool) (port : Option String) (s : AppState) : AppState :=
  if connected && portTruthy port then { s with pendingResumePort := port }
  else s

/-- Cache update for the system-stats event (app.js lines 656 to 663). -/
def onSystemStats (x : SysStats) (s : AppState) : AppState :=
  { s with lastSystemStats := x }

/-- Cache update for the typing-stats event (app.js lines 665 to 675). -/
def onTypingStats (x : TypStats) (s : AppState) : AppState :=
  { s with lastTypingStats := x }

/-- Whether the stats tick sees the device as connected (app.js line 689). -/
def serialConnected (s : AppState) : Bool :=
  match s.serial with
  | some st => st.isConnected
  | none => false

/-- The 1000 ms stats tick (app.js lines 687 to 695): while connected it
sends exactly one combined payload built from the latest caches; otherwise
it sends nothing and stores nothing. -/
def statsTick (s : AppState) : List CombinedPayload :=
  if serialConnected s then [⟨s.lastSystemStats, s.lastTypingStats⟩] else []

/-- Timer firing: if the id is still live, the entry is consumed and its
callback runs (the callbacks are the two attempt functions, app.js lines
751 to 755 and 841 to 845). -/
def fireTimer (id : Nat) (re : ResumeEnv) (ko : KbStartOutcome) (s : AppState) : AppState :=
  match s.liveTimers.find? (fun t => t.id == id) with
  | none => s
  | some t =>
      let s1 := { s with liveTimers := clearTimerEntry id s.liveTimers }
      match t.kind with
      | TimerKind.resumeReconnect => attemptResumeReconnect re s1
      | TimerKind.keyboardRecovery => attemptKeyboardRecovery ko s1

/-- External events driving the recovery core: power notifications, the
keyboard-fallback event, timer expiry, connection-change routing, the
manual restart command, collaborator state changes and stats updates. -/
inductive Ev where
  | suspend
  | resume (o : KbStartOutcome)
  | kbFallback
  | fire (id : Nat) (re : ResumeEnv) (ko : KbStartOutcome)
  | connChange (connected : Bool) (port : Option String)
  | manualRestart (o : KbStartOutcome)
  | setSerial (st : Option SerialStatus)
  | kbSet (alive fb active : Bool)
  | sysStats (x : SysStats)
  | typingStats (x : TypStats)

/-- One step of the event loop. -/
def step (s : AppState) (e : Ev) : AppState :=
  match e with
  | Ev.suspend => onSuspend s
  | Ev.resume o => onResume o s
  | Ev.kbFallback => onKeyboardFallback s
  | Ev.fire id re ko => fireTimer id re ko s
  | Ev.connChange c p => routeConnectionChange c p s
  | Ev.manualRestart o => manualRestartKeyboard o s
  | Ev.setSerial st => { s with serial := st }
  | Ev.kbSet alive fb active =>
      match s.keyboard with
      | some k =>
          let k2 : KeyboardMonitor :=
            { k with listenerAlive := alive, fallbackMode := fb, isActive := active }
          { s with keyboard := some k2 }
      | none => s
  | Ev.sysStats x => onSystemStats x s
  | Ev.typingStats x => onTypingStats x s

/-- State after initializeModules has run (app.js lines 483 to 501, 618 to
639, 653 to 654): no suspension, no pending port, both retry states idle,
collaborators initialized and idle. -/
def initState : AppState :=
  { systemSuspended := false, pendingResumePort := none,
    resumeReconnectTimer := none, resumeReconnectAttempts := 0,
    keyboardRecoveryTimer := none, keyboardRecoveryAttempts := 0,
    nextTimerId := 0, liveTimers := [],
    serial := some { isConnected := false, port := none },
    keyboard := some { currentSession := none, listenerAlive := false,
                       fallbackMode := false, isActive := false },
    lastSystemStats := { cpu := 0, memory := 0 },
    lastTypingStats := { wpm := 0, isActive := false } }

/-- Run a trace of events from the initial state. -/
def run (l : List Ev) : AppState :=
  l.foldl step initState

/-- A state is reachable when some event trace produces it. -/
def Reachable (s : AppState) : Prop :=
  ∃ l, run l = s

/-- Own data properties a SystemMonitor instance carries after its
constructor has run (src/system-monitor.js lines 12 to 34).  Line 16
assigns this.updateInterval = 1000, creating an own data property whose
name coincides with the prototype method updateInterval (lines 427 to
441). -/
structure SmInstance where
  isMonitoring : Bool
  monitoringActive : Bool
  updateIntervalProp : Nat
  deriving DecidableEq, Repr

/-- A freshly constructed SystemMonitor. -/
def smNew : SmInstance :=
  { isMonitoring := false, monitoringActive := false, updateIntervalProp := 1000 }

/-- Values a property lookup can produce on a SystemMonitor. -/
inductive SmProp where
  | num (n : Nat)
  | boolv (b : Bool)
  | nullv
  | objv
  | methodUpdateInterval
  | methodOther
  deriving DecidableEq, Repr

/-- Own properties of the instance (set by the constructor and by
startMonitoring), looked up before the prototype. -/
def smOwnProp (i : SmInstance) : String → Option SmProp
  | "isMonitoring" => some (SmProp.boolv i.isMonitoring)
  | "monitoringInterval" => some (if i.monitoringActive then SmProp.objv else SmProp.nullv)
  | "updateInterval" => some (SmProp.num i.updateIntervalProp)
  | _ => none

/-- Methods on SystemMonitor.prototype (the class methods of
src/system-monitor.js). -/
def smProtoProp : String → Option SmProp
  | "startMonitoring" => some SmProp.methodOther
  | "stopMonitoring" => some SmProp.methodOther
  | "updateInterval" => some SmProp.methodUpdateInterval
  | "isActive" => some SmProp.methodOther
  | "getStatus" => some SmProp.methodOther
  | _ => none

/-- JS property lookup: own properties shadow the prototype chain. -/
def smLookup (i : SmInstance) (name : String) : Option SmProp :=
  match smOwnProp i name with
  | some v => some v
  | none => smProtoProp name

/-- Result of calling a SystemMonitor member. -/
inductive SmCallResult where
  | ok (i : SmInstance)
  | typeError
  | rangeError
  deriving DecidableEq, Repr

/-- Body of the class method updateInterval (src/system-monitor.js lines
427 to 441) as it would execute if it were dispatched: it throws for an
interval outside 100 to 10000 and otherwise stores the value and restarts
monitoring when active. -/
def smUpdateIntervalBody (i : SmInstance) (newInterval : Nat) : SmCallResult :=
  if newInterval < 100 || 10000 < newInterval then SmCallResult.rangeError
  else
    let i1 := { i with updateIntervalProp := newInterval }
    if i1.isMonitoring then
      SmCallResult.ok { i1 with isMonitoring := true, monitoringActive := true }
    else SmCallResult.ok i1

/-- The member call systemMonitor.updateInterval(arg), as the callers in
app.js lines 1262 to 1269 and 1300 to 1307 perform it: the looked-up
property must be callable, otherwise the call throws TypeError. -/
def smCallUpdateInterval (i : SmInstance) (arg : Nat) : SmCallResult :=
  match smLookup i "updateInterval" with
  | some SmProp.methodUpdateInterval => smUpdateIntervalBody i arg
  | _ => SmCallResult.typeError

/-- Queue and handle well-formedness maintained by the event loop: live
timer ids are below the id counter, each timer variable id is below the
counter, every live timer of a kind is the one its variable points to, and
live ids are distinct. -/
structure InvQ (s : AppState) : Prop where
  idsBound : ∀ t ∈ s.liveTimers, t.id < s.nextTimerId
  rVarBound : ∀ i, s.resumeReconnectTimer = some i → i < s.nextTimerId
  kVarBound : ∀ i, s.keyboardRecoveryTimer = some i → i < s.nextTimerId
  rOwns : ∀ t ∈ s.liveTimers, t.kind = TimerKind.resumeReconnect →
    s.resumeReconnectTimer = some t.id
  kOwns : ∀ t ∈ s.liveTimers, t.kind = TimerKind.keyboardRecovery →
    s.keyboardRecoveryTimer = some t.id
  nodupIds : (s.liveTimers.map Timer.id).Nodup

/-- Full reachability invariant: queue well-formedness together with the
bounds on the device reconnect budget. -/
structure AppInv (s : AppState) : Prop where
  q : InvQ s
  rAttLe : s.resumeReconnectAttempts ≤ RESUME_RETRY_LIMIT
  rArmLt : s.resumeReconnectTimer ≠ none → s.resumeReconnectAttempts < RESUME_RETRY_LIMIT

lemma mem_clearTimerEntry {q : List Timer} {i : Nat} {t : Timer} :
    t ∈ clearTimerEntry i q ↔ t ∈ q ∧ ¬t.id = i := by
  simp [clearTimerEntry, List.mem_filter]

lemma nodup_map_clearTimerEntry {q : List Timer} (h : (q.map Timer.id).Nodup) (i : Nat) :
    ((clearTimerEntry i q).map Timer.id).Nodup :=
  List.Nodup.sublist ((List.filter_sublist q).map Timer.id) h

lemma invq_of_eq {a b : AppState} (h : InvQ a) (h1 : b.liveTimers = a.liveTimers)
    (h2 : b.nextTimerId = a.nextTimerId) (h3 : b.resumeReconnectTimer = a.resumeReconnectTimer)
    (h4 : b.keyboardRecoveryTimer = a.keyboardRecoveryTimer) : InvQ b := by
  constructor
  · rw [h1, h2]; exact h.idsBound
  · rw [h3, h2]; exact h.rVarBound
  · rw [h4, h2]; exact h.kVarBound
  · rw [h1, h3]; exact h.rOwns
  · rw [h1, h4]; exact h.kOwns
  · rw [h1]; exact h.nodupIds

@[simp] lemma clearResume_rTimer (s : AppState) :
    (clearResumeReconnectTimer s).resumeReconnectTimer = none := by
  unfold clearResumeReconnectTimer
  split
  next h => exact h
  next => rfl

@[simp] lemma clearResume_sus (s : AppState) :
    (clearResumeReconnectTimer s).systemSuspended = s.systemSuspended := by
  unfold clearResumeReconnectTimer; split <;> rfl

@[simp] lemma clearResume_pending (s : AppState) :
    (clearResumeReconnectTimer s).pendingResumePort = s.pendingResumePort := by
  unfold clearResumeReconnectTimer; split <;> rfl

@[simp] lemma clearResume_rAtt (s : AppState) :
    (clearResumeReconnectTimer s).resumeReconnectAttempts = s.resumeReconnectAttempts := by
  unfold clearResumeReconnectTimer; split <;> rfl

@[simp] lemma clearResume_kTimer (s : AppState) :
    (clearResumeReconnectTimer s).keyboardRecoveryTimer = s.keyboardRecoveryTimer := by
  unfold clearResumeReconnectTimer; split <;> rfl

@[simp] lemma clearResume_kAtt (s : AppState) :
    (clearResumeReconnectTimer s).keyboardRecoveryAttempts = s.keyboardRecoveryAttempts := by
  unfold clearResumeReconnectTimer; split <;> rfl

@[simp] lemma clearResume_next (s : AppState) :
    (clearResumeReconnectTimer s).nextTimerId = s.nextTimerId := by
  unfold clearResumeReconnectTimer; split <;> rfl

@[simp] lemma clearResume_serial (s : AppState) :
    (clearResumeReconnectTimer s).serial = s.serial := by
  unfold clearResumeReconnectTimer; split <;> rfl

@[simp] lemma clearResume_keyboard (s : AppState) :
    (clearResumeReconnectTimer s).keyboard = s.keyboard := by
  unfold clearResumeReconnectTimer; split <;> rfl

@[simp] lemma clearKb_kTimer (s : AppState) :
    (clearKeyboardRecoveryTimer s).keyboardRecoveryTimer = none := by
  unfold clearKeyboardRecoveryTimer
  split
  next h => exact h
  next => rfl

@[simp] lemma clearKb_sus (s : AppState) :
    (clearKeyboardRecoveryTimer s).systemSuspended = s.systemSuspended := by
  unfold clearKeyboardRecoveryTimer; split <;> rfl

@[simp] lemma clearKb_pending (s : AppState) :
    (clearKeyboardRecoveryTimer s).pendingResumePort = s.pendingResumePort := by
  unfold clearKeyboardRecoveryTimer; split <;> rfl

@[simp] lemma clearKb_rTimer (s : AppState) :
    (clearKeyboardRecoveryTimer s).resumeReconnectTimer = s.resumeReconnectTimer := by
  unfold clearKeyboardRecoveryTimer; split <;> rfl

@[simp] lemma clearKb_rAtt (s : AppState) :
    (clearKeyboardRecoveryTimer s).resumeReconnectAttempts = s.resumeReconnectAttempts := by
  unfold clearKeyboardRecoveryTimer; split <;> rfl

@[simp] lemma clearKb_kAtt (s : AppState) :
    (clearKeyboardRecoveryTimer s).keyboardRecoveryAttempts = s.keyboardRecoveryAttempts := by
  unfold clearKeyboardRecoveryTimer; split <;> rfl

@[simp] lemma clearKb_next (s : AppState) :
    (clearKeyboardRecoveryTimer s).nextTimerId = s.nextTimerId := by
  unfold clearKeyboardRecoveryTimer; split <;> rfl

@[simp] lemma clearKb_serial (s : AppState) :
    (clearKeyboardRecoveryTimer s).serial = s.serial := by
  unfold clearKeyboardRecoveryTimer; split <;> rfl

@[simp] lemma clearKb_keyboard (s : AppState) :
    (clearKeyboardRecoveryTimer s).keyboard = s.keyboard := by
  unfold clearKeyboardRecoveryTimer; split <;> rfl

@[simp] lemma schedResume_sus (d : Nat) (s : AppState) :
    (scheduleResumeReconnect d s).systemSuspended = s.systemSuspended := by
  unfold scheduleResumeReconnect; split <;> simp

@[simp] lemma schedResume_pending (d : Nat) (s : AppState) :
    (scheduleResumeReconnect d s).pendingResumePort = s.pendingResumePort := by
  unfold scheduleResumeReconnect; split <;> simp

@[simp] lemma schedResume_rAtt (d : Nat) (s : AppState) :
    (scheduleResumeReconnect d s).resumeReconnectAttempts = s.resumeReconnectAttempts := by
  unfold scheduleResumeReconnect; split <;> simp

@[simp] lemma schedResume_kTimer (d : Nat) (s : AppState) :
    (scheduleResumeReconnect d s).keyboardRecoveryTimer = s.keyboardRecoveryTimer := by
  unfold scheduleResumeReconnect; split <;> simp

@[simp] lemma schedResume_kAtt (d : Nat) (s : AppState) :
    (scheduleResumeReconnect d s).keyboardRecoveryAttempts = s.keyboardRecoveryAttempts := by
  unfold scheduleResumeReconnect; split <;> simp

@[simp] lemma schedResume_serial (d : Nat) (s : AppState) :
    (scheduleResumeReconnect d s).serial = s.serial := by
  unfold scheduleResumeReconnect; split <;> simp

@[simp] lemma schedResume_keyboard (d : Nat) (s : AppState) :
    (scheduleResumeReconnect d s).keyboard = s.keyboard := by
  unfold scheduleResumeReconnect; split <;> simp

@[simp] lemma schedKb_sus (d : Nat) (s : AppState) :
    (scheduleKeyboardRecovery d s).systemSuspended = s.systemSuspended := by
  unfold scheduleKeyboardRecovery; split <;> simp

@[simp] lemma schedKb_pending (d : Nat) (s : AppState) :
    (scheduleKeyboardRecovery d s).pendingResumePort = s.pendingResumePort := by
  unfold scheduleKeyboardRecovery; split <;> simp

@[simp] lemma schedKb_rTimer (d : Nat) (s : AppState) :
    (scheduleKeyboardRecovery d s).resumeReconnectTimer = s.resumeReconnectTimer := by
  unfold scheduleKeyboardRecovery; split <;> simp

@[simp] lemma schedKb_rAtt (d : Nat) (s : AppState) :
    (scheduleKeyboardRecovery d s).resumeReconnectAttempts = s.resumeReconnectAttempts := by
  unfold scheduleKeyboardRecovery; split <;> simp

@[simp] lemma schedKb_kAtt (d : Nat) (s : AppState) :
    (scheduleKeyboardRecovery d s).keyboardRecoveryAttempts = s.keyboardRecoveryAttempts := by
  unfold scheduleKeyboardRecovery; split <;> simp

@[simp] lemma schedKb_serial (d : Nat) (s : AppState) :
    (scheduleKeyboardRecovery d s).serial = s.serial := by
  unfold scheduleKeyboardRecovery; split <;> simp

@[simp] lemma schedKb_keyboard (d : Nat) (s : AppState) :
    (scheduleKeyboardRecovery d s).keyboard = s.keyboard := by
  unfold scheduleKeyboardRecovery; split <;> simp

lemma invq_clearResume {s : AppState} (h : InvQ s) : InvQ (clearResumeReconnectTimer s) := by
  unfold clearResumeReconnectTimer
  split
  · exact h
  next i heq =>
    constructor
    · intro t ht
      exact h.idsBound t (mem_clearTimerEntry.mp ht).1
    · intro j hj
      simp at hj
    · intro j hj
      exact h.kVarBound j hj
    · intro t ht hk
      rcases mem_clearTimerEntry.mp ht with ⟨ht1, hne⟩
      have h2 := h.rOwns t ht1 hk
      rw [heq] at h2
      exact absurd (Option.some_injective _ h2).symm hne
    · intro t ht hk
      exact h.kOwns t (mem_clearTimerEntry.mp ht).1 hk
    · exact nodup_map_clearTimerEntry h.nodupIds i

lemma invq_clearKb {s : AppState} (h : InvQ s) : InvQ (clearKeyboardRecoveryTimer s) := by
  unfold clearKeyboardRecoveryTimer
  split
  · exact h
  next i heq =>
    constructor
    · intro t ht
      exact h.idsBound t (mem_clearTimerEntry.mp ht).1
    · intro j hj
      exact h.rVarBound j hj
    · intro j hj
      simp at hj
    · intro t ht hk
      exact h.rOwns t (mem_clearTimerEntry.mp ht).1 hk
    · intro t ht hk
      rcases mem_clearTimerEntry.mp ht with ⟨ht1, hne⟩
      have h2 := h.kOwns t ht1 hk
      rw [heq] at h2
      exact absurd (Option.some_injective _ h2).symm hne
    · exact nodup_map_clearTimerEntry h.nodupIds i

lemma clearResume_live_no_resume {s : AppState} (h : InvQ s) (t : Timer)
    (ht : t ∈ (clearResumeReconnectTimer s).liveTimers)
    (hk : t.kind = TimerKind.resumeReconnect) : False := by
  have h1 := (invq_clearResume h).rOwns t ht hk
  rw [clearResume_rTimer] at h1
  exact Option.noConfusion h1

lemma clearKb_live_no_kb {s : AppState} (h : InvQ s) (t : Timer)
    (ht : t ∈ (clearKeyboardRecoveryTimer s).liveTimers)
    (hk : t.kind = TimerKind.keyboardRecovery) : False := by
  have h1 := (invq_clearKb h).kOwns t ht hk
  rw [clearKb_kTimer] at h1
  exact Option.noConfusion h1

lemma clearResume_live_subset {s : AppState} {t : Timer}
    (ht : t ∈ (clearResumeReconnectTimer s).liveTimers) : t ∈ s.liveTimers := by
  unfold clearResumeReconnectTimer at ht
  revert ht
  split
  · exact id
  · exact fun ht => (mem_clearTimerEntry.mp ht).1

lemma clearKb_live_subset {s : AppState} {t : Timer}
    (ht : t ∈ (clearKeyboardRecoveryTimer s).liveTimers) : t ∈ s.liveTimers := by
  unfold clearKeyboardRecoveryTimer at ht
  revert ht
  split
  · exact id
  · exact fun ht => (mem_clearTimerEntry.mp ht).1

lemma invq_scheduleResume {s : AppState} (h : InvQ s) (d : Nat) :
    InvQ (scheduleResumeReconnect d s) := by
  unfold scheduleResumeReconnect
  split
  · exact h
  · have h1 := invq_clearResume h
    constructor
    · intro t ht
      rcases List.mem_cons.mp ht with h2 | h2
      · subst h2
        show (clearResumeReconnectTimer s).nextTimerId < (clearResumeReconnectTimer s).nextTimerId + 1
        omega
      · have h3 := h1.idsBound t h2
        show t.id < (clearResumeReconnectTimer s).nextTimerId + 1
        omega
    · intro j hj
      have h2 : (clearResumeReconnectTimer s).nextTimerId = j := Option.some_injective _ hj
      show j < (clearResumeReconnectTimer s).nextTimerId + 1
      omega
    · intro j hj
      have h3 := h1.kVarBound j hj
      show j < (clearResumeReconnectTimer s).nextTimerId + 1
      omega
    · intro t ht hk
      rcases List.mem_cons.mp ht with h2 | h2
      · subst h2; rfl
      · exact absurd hk (fun hk2 => clearResume_live_no_resume h t h2 hk2)
    · intro t ht hk
      rcases List.mem_cons.mp ht with h2 | h2
      · subst h2; exact TimerKind.noConfusion hk
      · exact h1.kOwns t h2 hk
    · refine List.Nodup.cons ?_ h1.nodupIds
      intro hmem
      rcases List.mem_map.mp hmem with ⟨t, ht, hid⟩
      have h3 := h1.idsBound t ht
      have h4 : t.id = (clearResumeReconnectTimer s).nextTimerId := hid
      omega

lemma invq_scheduleKb {s : AppState} (h : InvQ s) (d : Nat) :
    InvQ (scheduleKeyboardRecovery d s) := by
  unfold scheduleKeyboardRecovery
  split
  · exact h
  · have h1 := invq_clearKb h
    constructor
    · intro t ht
      rcases List.mem_cons.mp ht with h2 | h2
      · subst h2
        show (clearKeyboardRecoveryTimer s).nextTimerId < (clearKeyboardRecoveryTimer s).nextTimerId + 1
        omega
      · have h3 := h1.idsBound t h2
        show t.id < (clearKeyboardRecoveryTimer s).nextTimerId + 1
        omega
    · intro j hj
      have h3 := h1.rVarBound j hj
      show j < (clearKeyboardRecoveryTimer s).nextTimerId + 1
      omega
    · intro j hj
      have h2 : (clearKeyboardRecoveryTimer s).nextTimerId = j := Option.some_injective _ hj
      show j < (clearKeyboardRecoveryTimer s).nextTimerId + 1
      omega
    · intro t ht hk
      rcases List.mem_cons.mp ht with h2 | h2
      · subst h2; exact TimerKind.noConfusion hk
      · exact h1.rOwns t h2 hk
    · intro t ht hk
      rcases List.mem_cons.mp ht with h2 | h2
      · subst h2; rfl
      · exact absurd hk (fun hk2 => clearKb_live_no_kb h t h2 hk2)
    · refine List.Nodup.cons ?_ h1.nodupIds
      intro hmem
      rcases List.mem_map.mp hmem with ⟨t, ht, hid⟩
      have h3 := h1.idsBound t ht
      have h4 : t.id = (clearKeyboardRecoveryTimer s).nextTimerId := hid
      omega

lemma appinv_clearResume {s : AppState} (hq : InvQ s)
    (ha : s.resumeReconnectAttempts ≤ RESUME_RETRY_LIMIT) :
    AppInv (clearResumeReconnectTimer s) := by
  refine ⟨invq_clearResume hq, by simpa using ha, ?_⟩
  intro hc
  rw [clearResume_rTimer] at hc
  exact absurd rfl hc

lemma appinv_clearKb {s : AppState} (h : AppInv s) :
    AppInv (clearKeyboardRecoveryTimer s) := by
  refine ⟨invq_clearKb h.q, by simpa using h.rAttLe, ?_⟩
  intro hc
  rw [clearKb_rTimer] at hc
  simpa using h.rArmLt hc

lemma appinv_schedResume {s : AppState} (hq : InvQ s)
    (hlt : s.resumeReconnectAttempts < RESUME_RETRY_LIMIT) (d : Nat) :
    AppInv (scheduleResumeReconnect d s) := by
  refine ⟨invq_scheduleResume hq d, by simpa using hlt.le, ?_⟩
  intro _
  simpa using hlt

lemma appinv_schedKb {s : AppState} (h : AppInv s) (d : Nat) :
    AppInv (scheduleKeyboardRecovery d s) := by
  refine ⟨invq_scheduleKb h.q d, by simpa using h.rAttLe, ?_⟩
  intro hc
  rw [schedKb_rTimer] at hc
  simpa using h.rArmLt hc

lemma appinv_restartKb {s : AppState} (h : AppInv s) (f : Bool) (o : KbStartOutcome) :
    AppInv ((restartKeyboardMonitoring f o s).fst) := by
  unfold restartKeyboardMonitoring
  split
  · exact h
  · split
    · exact h
    · split
      · exact appinv_clearKb ⟨invq_of_eq h.q rfl rfl rfl rfl, h.rAttLe, h.rArmLt⟩
      · exact ⟨invq_of_eq h.q rfl rfl rfl rfl, h.rAttLe, h.rArmLt⟩

lemma appinv_attemptResume {s : AppState} (h : AppInv s)
    (hlt : s.resumeReconnectAttempts < RESUME_RETRY_LIMIT) (e : ResumeEnv) :
    AppInv (attemptResumeReconnect e s) := by
  unfold attemptResumeReconnect
  split
  · split
    · exact h
    · split
      · exact appinv_clearResume (invq_of_eq h.q rfl rfl rfl rfl) (Nat.zero_le _)
      · split
        · exact appinv_clearResume (invq_of_eq h.q rfl rfl rfl rfl) (Nat.zero_le _)
        · dsimp only
          split
          · exact appinv_clearResume (invq_of_eq h.q rfl rfl rfl rfl) (Nat.succ_le_of_lt hlt)
          · next hno =>
            refine appinv_schedResume ?_ ?_ _
            · exact invq_of_eq h.q rfl rfl rfl rfl
            · exact Nat.lt_of_not_le hno
  · exact h

lemma appinv_attemptKb {s : AppState} (h : AppInv s) (o : KbStartOutcome) :
    AppInv (attemptKeyboardRecovery o s) := by
  unfold attemptKeyboardRecovery
  split
  · exact h
  · split
    · exact h
    · split
      · have h2 := appinv_clearKb h
        exact ⟨invq_of_eq h2.q rfl rfl rfl rfl, h2.rAttLe, h2.rArmLt⟩
      · split
        · exact appinv_clearKb ⟨invq_of_eq h.q rfl rfl rfl rfl, h.rAttLe, h.rArmLt⟩
        · dsimp only
          split
          · exact appinv_clearKb ⟨invq_of_eq h.q rfl rfl rfl rfl, h.rAttLe, h.rArmLt⟩
          · refine appinv_schedKb ?_ _
            exact ⟨invq_of_eq h.q rfl rfl rfl rfl, h.rAttLe, h.rArmLt⟩

lemma appinv_removeEntry {s : AppState} (h : AppInv s) (i : Nat) :
    AppInv { s with liveTimers := clearTimerEntry i s.liveTimers } :=
  ⟨⟨fun t ht => h.q.idsBound t (mem_clearTimerEntry.mp ht).1,
    h.q.rVarBound, h.q.kVarBound,
    fun t ht hk => h.q.rOwns t (mem_clearTimerEntry.mp ht).1 hk,
    fun t ht hk => h.q.kOwns t (mem_clearTimerEntry.mp ht).1 hk,
    nodup_map_clearTimerEntry h.q.nodupIds i⟩, h.rAttLe, h.rArmLt⟩

lemma appinv_onSuspend {s : AppState} (h : AppInv s) : AppInv (onSuspend s) := by
  unfold onSuspend
  dsimp only
  have h1 : AppInv (clearResumeReconnectTimer { s with systemSuspended := true }) :=
    appinv_clearResume (invq_of_eq h.q rfl rfl rfl rfl) h.rAttLe
  have h2 : AppInv { clearResumeReconnectTimer { s with systemSuspended := true } with
      resumeReconnectAttempts := 0 } :=
    ⟨invq_of_eq h1.q rfl rfl rfl rfl, Nat.zero_le _,
     fun hc => absurd (clearResume_rTimer { s with systemSuspended := true }) hc⟩
  split
  · exact h2
  · split
    · exact ⟨invq_of_eq h2.q rfl rfl rfl rfl, h2.rAttLe, h2.rArmLt⟩
    · split
      · exact ⟨invq_of_eq h2.q rfl rfl rfl rfl, h2.rAttLe, h2.rArmLt⟩
      · exact h2

lemma appinv_onResume {s : AppState} (h : AppInv s) (o : KbStartOutcome) :
    AppInv (onResume o s) := by
  unfold onResume
  dsimp only
  apply appinv_restartKb
  have h1 : AppInv { s with systemSuspended := false, resumeReconnectAttempts := 0 } :=
    ⟨invq_of_eq h.q rfl rfl rfl rfl, Nat.zero_le _,
     fun _ => (by decide : (0 : Nat) < RESUME_RETRY_LIMIT)⟩
  split
  · refine appinv_schedResume ?_ ?_ _
    · exact h1.q
    · show (0 : Nat) < RESUME_RETRY_LIMIT
      decide
  · exact h1

lemma appinv_onFallback {s : AppState} (h : AppInv s) : AppInv (onKeyboardFallback s) := by
  unfold onKeyboardFallback
  dsimp only
  refine appinv_schedKb ?_ _
  split
  · exact ⟨invq_of_eq h.q rfl rfl rfl rfl, h.rAttLe, h.rArmLt⟩
  · exact h

lemma appinv_manualRestart {s : AppState} (h : AppInv s) (o : KbStartOutcome) :
    AppInv (manualRestartKeyboard o s) := by
  unfold manualRestartKeyboard
  split
  · exact h
  · dsimp only
    have h1 : AppInv (clearKeyboardRecoveryTimer { s with keyboardRecoveryAttempts := 0 }) :=
      appinv_clearKb ⟨invq_of_eq h.q rfl rfl rfl rfl, h.rAttLe, h.rArmLt⟩
    have h2 := appinv_restartKb h1 true o
    split
    · split
      · exact appinv_schedKb h2 _
      · exact h2
    · exact appinv_schedKb h2 _

lemma appinv_fire {s : AppState} (h : AppInv s) (i : Nat) (re : ResumeEnv)
    (ko : KbStartOutcome) : AppInv (fireTimer i re ko s) := by
  unfold fireTimer
  split
  · exact h
  next t hfind =>
    have hmem : t ∈ s.liveTimers := List.mem_of_find?_eq_some hfind
    have h1 : AppInv { s with liveTimers := clearTimerEntry i s.liveTimers } :=
      appinv_removeEntry h i
    split
    next hkind =>
      have hvar := h.q.rOwns t hmem hkind
      have hlt : s.resumeReconnectAttempts < RESUME_RETRY_LIMIT := by
        apply h.rArmLt
        rw [hvar]
        simp
      exact appinv_attemptResume h1 hlt re
    next hkind =>
      exact appinv_attemptKb h1 ko

lemma appinv_step {s : AppState} (h : AppInv s) (e : Ev) : AppInv (step s e) := by
  cases e with
  | suspend => exact appinv_onSuspend h
  | resume o => exact appinv_onResume h o
  | kbFallback => exact appinv_onFallback h
  | fire i re ko => exact appinv_fire h i re ko
  | connChange c p =>
      show AppInv (routeConnectionChange c p s)
      unfold routeConnectionChange
      split
      · exact ⟨invq_of_eq h.q rfl rfl rfl rfl, h.rAttLe, h.rArmLt⟩
      · exact h
  | manualRestart o => exact appinv_manualRestart h o
  | setSerial st => exact ⟨invq_of_eq h.q rfl rfl rfl rfl, h.rAttLe, h.rArmLt⟩
  | kbSet a f ac =>
      simp only [step]
      split
      · exact ⟨invq_of_eq h.q rfl rfl rfl rfl, h.rAttLe, h.rArmLt⟩
      · exact h
  | sysStats x => exact ⟨invq_of_eq h.q rfl rfl rfl rfl, h.rAttLe, h.rArmLt⟩
  | typingStats x => exact ⟨invq_of_eq h.q rfl rfl rfl rfl, h.rAttLe, h.rArmLt⟩

lemma appinv_foldl (l : List Ev) : ∀ s : AppState, AppInv s → AppInv (l.foldl step s) := by
  induction l with
  | nil => exact fun s h => h
  | cons e l ih => exact fun s h => ih (step s e) (appinv_step h e)

lemma appinv_initState : AppInv initState := by
  refine ⟨⟨?_, ?_, ?_, ?_, ?_, ?_⟩, ?_, ?_⟩ <;> simp [initState, RESUME_RETRY_LIMIT]

lemma appinv_reachable {s : AppState} (h : Reachable s) : AppInv s := by
  obtain ⟨l, hl⟩ := h
  rw [← hl]
  exact appinv_foldl l initState appinv_initState

lemma filter_kind_length_le_one {l : List Timer} (hnd : (l.map Timer.id).Nodup)
    {k : TimerKind} {c : Nat} (hc : ∀ t ∈ l, t.kind = k → t.id = c) :
    (l.filter (fun t => t.kind == k)).length ≤ 1 := by
  induction l with
  | nil => simp
  | cons a l ih =>
    have hnd2 : (∀ x ∈ l, ¬x.id = a.id) ∧ (l.map Timer.id).Nodup := by simpa using hnd
    by_cases hk : a.kind = k
    · rw [List.filter_cons_of_pos (by simpa using hk)]
      have hnil : l.filter (fun t => t.kind == k) = [] := by
        rw [List.filter_eq_nil_iff]
        intro t ht htk
        have h1 : t.id = c := hc t (List.mem_cons_of_mem a ht) (by simpa using htk)
        have h2 : a.id = c := hc a (List.mem_cons_self a l) hk
        exact hnd2.1 t ht (h1.trans h2.symm)
      simp [hnil]
    · rw [List.filter_cons_of_neg (by simpa using hk)]
      exact ih hnd2.2 (fun t ht => hc t (List.mem_cons_of_mem a ht))

lemma live_resume_le_one {s : AppState} (h : InvQ s) :
    (s.liveTimers.filter (fun t => t.kind == TimerKind.resumeReconnect)).length ≤ 1 := by
  cases hv : s.resumeReconnectTimer with
  | none =>
    refine filter_kind_length_le_one h.nodupIds (c := 0) ?_
    intro t ht hk
    have h1 := h.rOwns t ht hk
    rw [hv] at h1
    exact Option.noConfusion h1
  | some c =>
    refine filter_kind_length_le_one h.nodupIds (c := c) ?_
    intro t ht hk
    have h1 := h.rOwns t ht hk
    rw [hv] at h1
    exact (Option.some_injective _ h1).symm

lemma live_kb_le_one {s : AppState} (h : InvQ s) :
    (s.liveTimers.filter (fun t => t.kind == TimerKind.keyboardRecovery)).length ≤ 1 := by
  cases hv : s.keyboardRecoveryTimer with
  | none =>
    refine filter_kind_length_le_one h.nodupIds (c := 0) ?_
    intro t ht hk
    have h1 := h.kOwns t ht hk
    rw [hv] at h1
    exact Option.noConfusion h1
  | some c =>
    refine filter_kind_length_le_one h.nodupIds (c := c) ?_
    intro t ht hk
    have h1 := h.kOwns t ht hk
    rw [hv] at h1
    exact (Option.some_injective _ h1).symm

/-- Environment in which the keyboard restart throws. -/
def koFail : KbStartOutcome := { success := false, now := 0, fallbackAfter := true }

/-- Environment in which the keyboard restart succeeds with no fallback. -/
def koOk : KbStartOutcome := { success := true, now := 0, fallbackAfter := false }

/-- Environment with an empty port enumeration and a failing connect. -/
def reFail : ResumeEnv := { ports := [], connectSuccess := false }

/-- C2 counterexample: the suspend handler does not cancel an in-flight
keyboard-recovery timer (it only cancels the resume-reconnect timer, app.js
lines 893 to 896), and that timer, armed before the suspend, fires a
recovery attempt after a later resume. -/
theorem suspend_keeps_keyboard_timer_cex :
    (run [Ev.kbFallback, Ev.suspend]).keyboardRecoveryTimer = some 0 ∧
    (⟨0, TimerKind.keyboardRecovery, 2000⟩ : Timer) ∈
      (run [Ev.kbFallback, Ev.suspend]).liveTimers ∧
    (run [Ev.kbFallback, Ev.suspend, Ev.resume koFail,
          Ev.fire 0 reFail koFail]).keyboardRecoveryAttempts = 1 := by
  decide

/-- C3 counterexample: after the keyboard recovery budget is exhausted at
5 failed attempts, a further keyboard-fallback event arms a fresh recovery
timer without any reset (app.js line 683 has no attempts guard), and its
expiry pushes the attempt counter to 6, above the limit. -/
theorem keyboard_attempts_exceed_limit_cex :
    (run [Ev.kbFallback, Ev.fire 0 reFail koFail, Ev.fire 1 reFail koFail,
          Ev.fire 2 reFail koFail, Ev.fire 3 reFail koFail, Ev.fire 4 reFail koFail,
          Ev.kbFallback]).keyboardRecoveryAttempts = KEYBOARD_RECOVERY_LIMIT ∧
    (run [Ev.kbFallback, Ev.fire 0 reFail koFail, Ev.fire 1 reFail koFail,
          Ev.fire 2 reFail koFail, Ev.fire 3 reFail koFail, Ev.fire 4 reFail koFail,
          Ev.kbFallback]).keyboardRecoveryTimer = some 5 ∧
    (run [Ev.kbFallback, Ev.fire 0 reFail koFail, Ev.fire 1 reFail koFail,
          Ev.fire 2 reFail koFail, Ev.fire 3 reFail koFail, Ev.fire 4 reFail koFail,
          Ev.kbFallback, Ev.fire 5 reFail koFail]).keyboardRecoveryAttempts =
      KEYBOARD_RECOVERY_LIMIT + 1 := by
  decide

/-- Session with 42 recorded keystrokes. -/
def session42 : TypingSession :=
  { totalKeystrokes := 42, startTime := some 5, lastKeystrokeTime := 7, wpm := 3 }

/-- Active keyboard monitor in fallback mode holding session42. -/
def monitor42 : KeyboardMonitor :=
  { currentSession := some session42, listenerAlive := false,
    fallbackMode := true, isActive := true }

/-- App state whose keyboard session has recorded 42 keystrokes. -/
def stateWith42 : AppState := { initState with keyboard := some monitor42 }

/-- C4 counterexample: the automatic recovery attempt restarts the listener
without snapshotting or splicing the session, so the 42 recorded keystrokes
are lost, while the forced restart path keeps them. -/
theorem recovery_restart_drops_session_cex :
    ((attemptKeyboardRecovery koOk stateWith42).keyboard.map
      (fun k => k.currentSession.map TypingSession.totalKeystrokes)) = some (some 0) ∧
    (((restartKeyboardMonitoring true koOk stateWith42).fst).keyboard.map
      (fun k => k.currentSession.map TypingSession.totalKeystrokes)) = some (some 42) ∧
    (stateWith42.keyboard.map
      (fun k => k.currentSession.map TypingSession.totalKeystrokes)) = some (some 42) := by
  decide

/-- C6 counterexample: on resume the handler calls restartKeyboardMonitoring
with no options (force defaults to false, app.js line 926), so with an
inactive listener the restart is skipped entirely, while a forced restart
would have revived the listener. -/
theorem resume_restart_not_forced_cex :
    (onResume koOk initState).keyboard = initState.keyboard ∧
    initState.keyboard.map KeyboardMonitor.isActive = some false ∧
    initState.keyboard.map KeyboardMonitor.listenerAlive = some false ∧
    ((restartKeyboardMonitoring true koOk initState).fst).keyboard.map
      KeyboardMonitor.listenerAlive = some true := by
  decide

/-- C8 counterexample: with the system suspended and the pre-suspend
keyboard-recovery timer still pending, a schedule call is a no-op that
neither cancels nor replaces the pending timer (app.js lines 836 to 838). -/
theorem schedule_noop_while_suspended_cex :
    (run [Ev.kbFallback, Ev.suspend]).systemSuspended = true ∧
    (run [Ev.kbFallback, Ev.suspend]).keyboardRecoveryTimer = some 0 ∧
    (⟨0, TimerKind.keyboardRecovery, 2000⟩ : Timer) ∈
      (run [Ev.kbFallback, Ev.suspend]).liveTimers ∧
    scheduleKeyboardRecovery 7777 (run [Ev.kbFallback, Ev.suspend]) =
      run [Ev.kbFallback, Ev.suspend] := by
  decide

/-- C10 counterexample: a connection-change event with connected true and
the non-null but empty port fails the truthiness test of app.js line 644,
so pendingResumePort is not set. -/
theorem conn_change_empty_port_cex :
    routeConnectionChange true (some "") initState = initState ∧
    initState.pendingResumePort = none := by
  decide

/-- C7: on each stats tick nothing is sent while the device is
disconnected (and nothing is buffered, the tick is a pure read), and while
connected exactly one combined payload is sent, built from the latest
cached system and typing snapshots at tick time. -/
theorem stats_tick_behavior (s : AppState) (a : SysStats) (b : TypStats) :
    statsTick s = (if serialConnected s then
      [⟨s.lastSystemStats, s.lastTypingStats⟩] else []) ∧
    statsTick (onSystemStats a (onTypingStats b s)) =
      (if serialConnected s then [⟨a, b⟩] else []) := by
  exact ⟨rfl, rfl⟩

/-- C9: the class method updateInterval validates its range exactly as
claimed, but the instance call systemMonitor.updateInterval(ms) never
reaches it: the constructor assignment on line 16 of
src/system-monitor.js shadows the prototype method with a number, so every
such call throws TypeError, even for the in-range 1000. -/
theorem updateInterval_call_throws_typeError :
    (100 ≤ 1000 ∧ 1000 ≤ 10000) ∧
    smCallUpdateInterval smNew 1000 = SmCallResult.typeError ∧
    (∀ (i : SmInstance) (ms : Nat), smCallUpdateInterval i ms = SmCallResult.typeError) ∧
    smUpdateIntervalBody smNew 1000 = SmCallResult.ok { smNew with updateIntervalProp := 1000 } ∧
    smUpdateIntervalBody smNew 50 = SmCallResult.rangeError := by
  refine ⟨by decide, by decide, ?_, by decide, by decide⟩
  intro i ms
  rfl

/-- C2 (amended): a suspend notification cancels the in-flight
resume-reconnect timer but leaves any in-flight keyboard-recovery timer
armed (so that timer can fire an attempt after a later resume); while the
suspended flag is true, both retry callbacks return immediately without
performing any work. -/
theorem suspend_cancels_resume_timer_only (s : AppState) (re : ResumeEnv)
    (ko : KbStartOutcome) :
    (onSuspend s).resumeReconnectTimer = none ∧
    (onSuspend s).keyboardRecoveryTimer = s.keyboardRecoveryTimer ∧
    (s.systemSuspended = true →
      attemptResumeReconnect re s = s ∧ attemptKeyboardRecovery ko s = s) := by
  refine ⟨?_, ?_, ?_⟩
  · unfold onSuspend
    dsimp only
    split
    · simp
    · split
      · simp
      · split <;> simp
  · unfold onSuspend
    dsimp only
    split
    · simp
    · split
      · simp
      · split <;> simp
  · intro hsus
    constructor
    · unfold attemptResumeReconnect
      split
      · simp [hsus]
      · rfl
    · unfold attemptKeyboardRecovery
      simp [hsus]

/-- C2 witness: in the suspended state reached after a fallback and a
suspend, both retry callbacks are no-ops. -/
theorem suspend_cancels_resume_timer_only_witness :
    attemptResumeReconnect reFail (run [Ev.kbFallback, Ev.suspend]) =
      run [Ev.kbFallback, Ev.suspend] ∧
    attemptKeyboardRecovery koFail (run [Ev.kbFallback, Ev.suspend]) =
      run [Ev.kbFallback, Ev.suspend] :=
  (suspend_cancels_resume_timer_only (run [Ev.kbFallback, Ev.suspend]) reFail koFail).2.2
    (by decide)

/-- C3 (amended): for the device reconnect subsystem the claim holds in
every reachable state: the attempt counter never exceeds its limit of 10,
and whenever a retry timer is armed (the handle or any live queue entry)
the counter is strictly below the limit, so no timer is ever scheduled
after exhaustion until the counter is reset.  The keyboard subsystem
violates the claim: a further keyboard-fallback event re-arms its timer
with no reset and lets the counter reach 6, above its limit of 5. -/
theorem device_retry_halts_at_limit (s : AppState) (h : Reachable s) :
    s.resumeReconnectAttempts ≤ RESUME_RETRY_LIMIT ∧
    (s.resumeReconnectTimer ≠ none →
      s.resumeReconnectAttempts < RESUME_RETRY_LIMIT) ∧
    (∀ t ∈ s.liveTimers, t.kind = TimerKind.resumeReconnect →
      s.resumeReconnectAttempts < RESUME_RETRY_LIMIT) := by
  have hi := appinv_reachable h
  refine ⟨hi.rAttLe, hi.rArmLt, ?_⟩
  intro t ht hk
  apply hi.rArmLt
  rw [hi.q.rOwns t ht hk]
  simp

/-- C3 witness: in the reachable state with a freshly armed resume
reconnect timer, the counter is below the limit. -/
theorem device_retry_halts_at_limit_witness :
    (run [Ev.connChange true (some "COM3"), Ev.suspend,
          Ev.resume koFail]).resumeReconnectTimer = some 0 ∧
    (run [Ev.connChange true (some "COM3"), Ev.suspend,
          Ev.resume koFail]).resumeReconnectAttempts < RESUME_RETRY_LIMIT :=
  ⟨by decide,
   (device_retry_halts_at_limit
      (run [Ev.connChange true (some "COM3"), Ev.suspend, Ev.resume koFail])
      ⟨[Ev.connChange true (some "COM3"), Ev.suspend, Ev.resume koFail], rfl⟩).2.1
     (by decide)⟩

/-- Session produced by the splice of restartKeyboardMonitoring: the
snapshot counters over the fresh session (whose wpm is 0). -/
def splicedSession (ps : TypingSession) : TypingSession :=
  { totalKeystrokes := ps.totalKeystrokes, startTime := ps.startTime,
    lastKeystrokeTime := ps.lastKeystrokeTime, wpm := 0 }

/-- Fresh session created by a successful startMonitoring at the given
timestamp. -/
def freshSessionAt (now : Nat) : TypingSession :=
  { totalKeystrokes := 0, startTime := some now, lastKeystrokeTime := 0, wpm := 0 }

/-- Monitor state after a successful startMonitoring holding the given
session. -/
def restartedMonitor (cs : TypingSession) (fb : Bool) : KeyboardMonitor :=
  { currentSession := some cs, listenerAlive := true, fallbackMode := fb,
    isActive := true }

lemma restartKb_skip {s : AppState} {k : KeyboardMonitor} (o : KbStartOutcome)
    (hk : s.keyboard = some k) (hact : k.isActive = false) :
    restartKeyboardMonitoring false o s = (s, RestartOutcome.ok) := by
  simp [restartKeyboardMonitoring, hk, hact]

lemma restartKb_splice {s : AppState} {k : KeyboardMonitor} {ps : TypingSession}
    {o : KbStartOutcome} {f : Bool} (hk : s.keyboard = some k)
    (hs : k.currentSession = some ps) (ho : o.success = true)
    (hgo : (!f && !k.isActive) = false) :
    ((restartKeyboardMonitoring f o s).fst).keyboard =
      some (restartedMonitor (splicedSession ps) o.fallbackAfter) := by
  simp [restartKeyboardMonitoring, hk, hs, ho, hgo, kbStart, kbStop,
    restartedMonitor, splicedSession]

lemma restartKb_fresh {s : AppState} {k : KeyboardMonitor} {o : KbStartOutcome}
    {f : Bool} (hk : s.keyboard = some k) (hs : k.currentSession = none)
    (ho : o.success = true) (hgo : (!f && !k.isActive) = false) :
    ((restartKeyboardMonitoring f o s).fst).keyboard =
      some (restartedMonitor (freshSessionAt o.now) o.fallbackAfter) := by
  simp [restartKeyboardMonitoring, hk, hs, ho, hgo, kbStart, kbStop,
    restartedMonitor, freshSessionAt]

lemma restartKb_active_keyboard {s : AppState} {k : KeyboardMonitor}
    {o : KbStartOutcome} {f : Bool} (hk : s.keyboard = some k)
    (ho : o.success = true) (hgo : (!f && !k.isActive) = false) :
    ∃ k2, ((restartKeyboardMonitoring f o s).fst).keyboard = some k2 ∧
      k2.listenerAlive = true ∧ k2.isActive = true := by
  cases hcs : k.currentSession with
  | some ps => exact ⟨_, restartKb_splice hk hcs ho hgo, rfl, rfl⟩
  | none => exact ⟨_, restartKb_fresh hk hcs ho hgo, rfl, rfl⟩

/-- C4 (amended): the restartKeyboardMonitoring path, used by the manual
forced restart and by the resume handler, snapshots totalKeystrokes,
startTime and lastKeystrokeTime before stopping and splices them into the
new session after a successful start; the automatic recovery attempt
(attemptKeyboardRecovery) restarts the listener without this preservation
and leaves the fresh session counters. -/
theorem forced_restart_preserves_session (s : AppState) (k : KeyboardMonitor)
    (ps : TypingSession) (o : KbStartOutcome) (hk : s.keyboard = some k)
    (hs : k.currentSession = some ps) (ho : o.success = true) :
    ((restartKeyboardMonitoring true o s).fst).keyboard =
      some (restartedMonitor (splicedSession ps) o.fallbackAfter) ∧
    (splicedSession ps).totalKeystrokes = ps.totalKeystrokes ∧
    (splicedSession ps).startTime = ps.startTime ∧
    (splicedSession ps).lastKeystrokeTime = ps.lastKeystrokeTime ∧
    (s.systemSuspended = false → k.listenerAlive = false →
      (attemptKeyboardRecovery o s).keyboard =
        some (restartedMonitor (freshSessionAt o.now) o.fallbackAfter)) := by
  refine ⟨restartKb_splice hk hs ho (by simp), rfl, rfl, rfl, ?_⟩
  intro hsus halive
  unfold attemptKeyboardRecovery
  simp [hsus, hk, halive, kbStart, kbStop, ho, restartedMonitor, freshSessionAt]

/-- C4 witness: the forced restart of the 42-keystroke session keeps the
counters, the automatic recovery attempt resets them. -/
theorem forced_restart_preserves_session_witness :
    ((restartKeyboardMonitoring true koOk stateWith42).fst).keyboard =
      some (restartedMonitor (splicedSession session42) koOk.fallbackAfter) ∧
    (attemptKeyboardRecovery koOk stateWith42).keyboard =
      some (restartedMonitor (freshSessionAt koOk.now) koOk.fallbackAfter) := by
  have h := forced_restart_preserves_session stateWith42 monitor42 session42 koOk
    rfl rfl rfl
  exact ⟨h.1, h.2.2.2.2 rfl rfl⟩

/-- C6 (amended): on every resume notification the supervisor attempts one
restart of the keyboard listener without the force flag, so the restart is
skipped when the listener reports inactive; when the listener is active it
is restarted regardless of fallback state. -/
theorem resume_restart_skips_inactive (s : AppState) (k : KeyboardMonitor)
    (o : KbStartOutcome) (hk : s.keyboard = some k) :
    (k.isActive = false → (onResume o s).keyboard = s.keyboard) ∧
    (k.isActive = true → o.success = true → ∃ k2,
      (onResume o s).keyboard = some k2 ∧ k2.listenerAlive = true ∧
      k2.isActive = true) := by
  constructor
  · intro hact
    unfold onResume
    dsimp only
    split
    · rw [restartKb_skip o (by rw [schedResume_keyboard]; exact hk) hact]
      rw [schedResume_keyboard]
    · rw [@restartKb_skip
        { s with systemSuspended := false, resumeReconnectAttempts := 0 } k o hk hact]
  · intro hact ho
    unfold onResume
    dsimp only
    split
    · refine @restartKb_active_keyboard _ k _ _ ?_ ho ?_
      · rw [schedResume_keyboard]; exact hk
      · simp [hact]
    · refine @restartKb_active_keyboard _ k _ _ ?_ ho ?_
      · exact hk
      · simp [hact]

/-- C6 witness: the inactive initial monitor is left untouched by resume,
while the active 42-keystroke monitor is restarted. -/
theorem resume_restart_skips_inactive_witness :
    (onResume koOk initState).keyboard = initState.keyboard ∧
    ∃ k2, (onResume koOk stateWith42).keyboard = some k2 ∧
      k2.listenerAlive = true ∧ k2.isActive = true := by
  constructor
  · exact (resume_restart_skips_inactive initState ⟨none, false, false, false⟩
      koOk rfl).1 rfl
  · exact (resume_restart_skips_inactive stateWith42 monitor42 koOk rfl).2 rfl rfl

lemma clearResume_of_none {s : AppState} (h : s.resumeReconnectTimer = none) :
    clearResumeReconnectTimer s = s := by
  unfold clearResumeReconnectTimer
  rw [h]

lemma clearKb_of_none {s : AppState} (h : s.keyboardRecoveryTimer = none) :
    clearKeyboardRecoveryTimer s = s := by
  unfold clearKeyboardRecoveryTimer
  rw [h]

/-- C8 (amended): cancelling a retry timer is idempotent (cancelling with a
null handle is a no-op and the handle stays null); scheduling while the
system is suspended is a no-op that leaves any pending timer in place
(rather than cancelling and replacing it, see the counterexample);
scheduling while not suspended (and, for the keyboard state, with a
monitor present) cancels and replaces the pending timer so that the fresh
one is the only live timer of its kind; and in every reachable state at
most one timer per retry state is outstanding. -/
theorem cancel_idempotent_single_timer :
    (∀ s : AppState, s.resumeReconnectTimer = none →
      clearResumeReconnectTimer s = s) ∧
    (∀ s : AppState, clearResumeReconnectTimer (clearResumeReconnectTimer s) =
      clearResumeReconnectTimer s) ∧
    (∀ s : AppState, s.keyboardRecoveryTimer = none →
      clearKeyboardRecoveryTimer s = s) ∧
    (∀ s : AppState, clearKeyboardRecoveryTimer (clearKeyboardRecoveryTimer s) =
      clearKeyboardRecoveryTimer s) ∧
    (∀ (s : AppState) (d : Nat), s.systemSuspended = true →
      scheduleResumeReconnect d s = s ∧ scheduleKeyboardRecovery d s = s) ∧
    (∀ (s : AppState) (d : Nat), Reachable s → s.systemSuspended = false →
      ∃ i, (scheduleResumeReconnect d s).resumeReconnectTimer = some i ∧
        (⟨i, TimerKind.resumeReconnect, d⟩ : Timer) ∈
          (scheduleResumeReconnect d s).liveTimers ∧
        ∀ t ∈ (scheduleResumeReconnect d s).liveTimers,
          t.kind = TimerKind.resumeReconnect → t.id = i) ∧
    (∀ (s : AppState) (d : Nat), Reachable s → s.systemSuspended = false →
      s.keyboard.isNone = false →
      ∃ i, (scheduleKeyboardRecovery d s).keyboardRecoveryTimer = some i ∧
        (⟨i, TimerKind.keyboardRecovery, d⟩ : Timer) ∈
          (scheduleKeyboardRecovery d s).liveTimers ∧
        ∀ t ∈ (scheduleKeyboardRecovery d s).liveTimers,
          t.kind = TimerKind.keyboardRecovery → t.id = i) ∧
    (∀ s : AppState, Reachable s →
      (s.liveTimers.filter (fun t => t.kind == TimerKind.resumeReconnect)).length ≤ 1 ∧
      (s.liveTimers.filter (fun t => t.kind == TimerKind.keyboardRecovery)).length ≤ 1) := by
  refine ⟨fun s h => clearResume_of_none h,
    fun s => clearResume_of_none (clearResume_rTimer s),
    fun s h => clearKb_of_none h,
    fun s => clearKb_of_none (clearKb_kTimer s), ?_, ?_, ?_, ?_⟩
  · intro s d hsus
    constructor
    · unfold scheduleResumeReconnect
      rw [if_pos (by simp [hsus])]
    · unfold scheduleKeyboardRecovery
      rw [if_pos (by simp [hsus])]
  · intro s d hre hsus
    have hi := appinv_reachable hre
    unfold scheduleResumeReconnect
    rw [if_neg (by simp [hsus])]
    refine ⟨(clearResumeReconnectTimer s).nextTimerId, rfl,
      List.mem_cons_self _ _, ?_⟩
    intro t ht hk
    rcases List.mem_cons.mp ht with h2 | h2
    · rw [h2]
    · exact absurd hk (fun hk2 => clearResume_live_no_resume hi.q t h2 hk2)
  · intro s d hre hsus hkb
    have hi := appinv_reachable hre
    unfold scheduleKeyboardRecovery
    rw [if_neg (by simp [hsus, hkb])]
    refine ⟨(clearKeyboardRecoveryTimer s).nextTimerId, rfl,
      List.mem_cons_self _ _, ?_⟩
    intro t ht hk
    rcases List.mem_cons.mp ht with h2 | h2
    · rw [h2]
    · exact absurd hk (fun hk2 => clearKb_live_no_kb hi.q t h2 hk2)
  · intro s hre
    have hi := appinv_reachable hre
    exact ⟨live_resume_le_one hi.q, live_kb_le_one hi.q⟩

/-- C8 witness: cancelling the initial (already clear) resume timer is a
no-op, and the reachable state with an armed keyboard timer has at most one
live keyboard timer. -/
theorem cancel_idempotent_single_timer_witness :
    clearResumeReconnectTimer initState = initState ∧
    ((run [Ev.kbFallback]).liveTimers.filter
      (fun t => t.kind == TimerKind.keyboardRecovery)).length ≤ 1 :=
  ⟨cancel_idempotent_single_timer.1 initState (by decide),
   (cancel_idempotent_single_timer.2.2.2.2.2.2.2 (run [Ev.kbFallback])
     ⟨[Ev.kbFallback], rfl⟩).2⟩

/-- C10 (amended): a routed connection-change event carrying connected true
and a non-null, non-empty port records that port as pendingResumePort; for
the empty string (non-null but falsy in JS) it does not, see the
counterexample. -/
theorem conn_change_sets_pending_port (s : AppState) (p : String) (hne : p ≠ "") :
    (routeConnectionChange true (some p) s).pendingResumePort = some p := by
  unfold routeConnectionChange
  rw [if_pos]
  simp [portTruthy, hne]

/-- C10 witness: a concrete truthy port is recorded. -/
theorem conn_change_sets_pending_port_witness :
    (routeConnectionChange true (some "COM3") initState).pendingResumePort =
      some "COM3" :=
  conn_change_sets_pending_port initState "COM3" (by decide)

lemma sched_resume_armed {s : AppState} (hsus : s.systemSuspended = false) (d : Nat) :
    ∃ i, (scheduleResumeReconnect d s).resumeReconnectTimer = some i ∧
      (⟨i, TimerKind.resumeReconnect, d⟩ : Timer) ∈
        (scheduleResumeReconnect d s).liveTimers := by
  unfold scheduleResumeReconnect
  rw [if_neg (by simp [hsus])]
  exact ⟨_, rfl, List.mem_cons_self _ _⟩

lemma sched_resume_armed_timer {s : AppState} (hsus : s.systemSuspended = false)
    (d : Nat) :
    ∃ i, (scheduleResumeReconnect d s).resumeReconnectTimer = some i := by
  unfold scheduleResumeReconnect
  rw [if_neg (by simp [hsus])]
  exact ⟨_, rfl⟩

lemma sched_kb_armed {s : AppState} (hsus : s.systemSuspended = false)
    (hkb : s.keyboard.isNone = false) (d : Nat) :
    ∃ i, (scheduleKeyboardRecovery d s).keyboardRecoveryTimer = some i ∧
      (⟨i, TimerKind.keyboardRecovery, d⟩ : Timer) ∈
        (scheduleKeyboardRecovery d s).liveTimers := by
  unfold scheduleKeyboardRecovery
  rw [if_neg (by simp [hsus, hkb])]
  exact ⟨_, rfl, List.mem_cons_self _ _⟩

/-- C1: for both retry states, when the n-th attempt fails with
1 <= n < limit, the timer for the next attempt is armed with delay
min(base * 2^(n-1), max); with base 1000 and max 30000 this gives the
sequence 1000, 2000, 4000, 8000, 16000 and then 30000 capped. -/
theorem backoff_delay_formula :
    (∀ (s : AppState) (p : String) (st : SerialStatus) (e : ResumeEnv) (n : Nat),
      s.pendingResumePort = some p → s.serial = some st →
      s.systemSuspended = false → st.isConnected = false →
      s.resumeReconnectAttempts = n - 1 → 1 ≤ n → n < RESUME_RETRY_LIMIT →
      (e.ports.contains p && e.connectSuccess) = false →
      ∃ i, (attemptResumeReconnect e s).resumeReconnectTimer = some i ∧
        (⟨i, TimerKind.resumeReconnect,
          Nat.min (RESUME_RETRY_BASE_DELAY_MS * 2 ^ (n - 1))
            RESUME_RETRY_MAX_DELAY_MS⟩ : Timer) ∈
          (attemptResumeReconnect e s).liveTimers) ∧
    (∀ (s : AppState) (k : KeyboardMonitor) (o : KbStartOutcome) (n : Nat),
      s.keyboard = some k → s.systemSuspended = false →
      (k.listenerAlive && !k.fallbackMode) = false →
      s.keyboardRecoveryAttempts = n - 1 → 1 ≤ n → n < KEYBOARD_RECOVERY_LIMIT →
      o.success = false →
      ∃ i, (attemptKeyboardRecovery o s).keyboardRecoveryTimer = some i ∧
        (⟨i, TimerKind.keyboardRecovery,
          Nat.min (KEYBOARD_RECOVERY_BASE_DELAY_MS * 2 ^ (n - 1))
            KEYBOARD_RECOVERY_MAX_DELAY_MS⟩ : Timer) ∈
          (attemptKeyboardRecovery o s).liveTimers) ∧
    (List.range 9).map
        (fun j => Nat.min (RESUME_RETRY_BASE_DELAY_MS * 2 ^ j)
          RESUME_RETRY_MAX_DELAY_MS) =
      [1000, 2000, 4000, 8000, 16000, 30000, 30000, 30000, 30000] := by
  refine ⟨?_, ?_, by decide⟩
  · intro s p st e n hp hser hsus hconn hatt h1 hlt hfail
    have hnle : ¬RESUME_RETRY_LIMIT ≤ s.resumeReconnectAttempts + 1 := by
      rw [hatt]; omega
    have hd : s.resumeReconnectAttempts + 1 - 1 = n - 1 := by omega
    unfold attemptResumeReconnect
    simp only [hp, hser, hsus, hconn, hfail, hnle, hd, Bool.false_eq_true,
      if_false, ite_false]
    exact sched_resume_armed rfl _
  · intro s k o n hk hsus hunh hatt h1 hlt ho
    have hnle : ¬KEYBOARD_RECOVERY_LIMIT ≤ s.keyboardRecoveryAttempts + 1 := by
      rw [hatt]; omega
    have hd : s.keyboardRecoveryAttempts + 1 - 1 = n - 1 := by omega
    unfold attemptKeyboardRecovery
    simp only [hk, hsus, hunh, ho, hnle, hd, Bool.false_eq_true, if_false,
      ite_false]
    refine sched_kb_armed ?_ ?_ _
    · rfl
    · rfl

/-- Initial state with a pending resume port. -/
def statePending : AppState := { initState with pendingResumePort := some "COM3" }

/-- C1 witness: the first failed attempt from a fresh pending state arms
the next timer with delay min(1000 * 2^0, 30000). -/
theorem backoff_delay_formula_witness :
    ∃ i, (attemptResumeReconnect reFail statePending).resumeReconnectTimer = some i ∧
      (⟨i, TimerKind.resumeReconnect,
        Nat.min (RESUME_RETRY_BASE_DELAY_MS * 2 ^ (1 - 1))
          RESUME_RETRY_MAX_DELAY_MS⟩ : Timer) ∈
        (attemptResumeReconnect reFail statePending).liveTimers :=
  backoff_delay_formula.1 statePending "COM3" ⟨false, none⟩ reFail 1 rfl rfl rfl rfl
    rfl (by decide) (by decide) (by decide)

/-- C5: a resume reconnect attempt with a pending port, while disconnected
and not suspended: when the pending port is absent from the enumeration the
attempt fails as transient, keeps the pending port, increments the counter
and arms a backoff timer unless the budget is exhausted; when the port is
present and connectToDevice succeeds, pendingResumePort is cleared, the
counter resets to 0, the pending timer is cleared and the device is
connected to that port. -/
theorem resume_attempt_behavior (s : AppState) (p : String) (st : SerialStatus)
    (e : ResumeEnv) (hp : s.pendingResumePort = some p)
    (hser : s.serial = some st) (hsus : s.systemSuspended = false)
    (hconn : st.isConnected = false) :
    (e.ports.contains p = false →
      (attemptResumeReconnect e s).pendingResumePort = some p ∧
      (attemptResumeReconnect e s).resumeReconnectAttempts =
        s.resumeReconnectAttempts + 1 ∧
      (s.resumeReconnectAttempts + 1 < RESUME_RETRY_LIMIT →
        ∃ i, (attemptResumeReconnect e s).resumeReconnectTimer = some i) ∧
      (RESUME_RETRY_LIMIT ≤ s.resumeReconnectAttempts + 1 →
        (attemptResumeReconnect e s).resumeReconnectTimer = none)) ∧
    (e.ports.contains p = true → e.connectSuccess = true →
      (attemptResumeReconnect e s).pendingResumePort = none ∧
      (attemptResumeReconnect e s).resumeReconnectAttempts = 0 ∧
      (attemptResumeReconnect e s).resumeReconnectTimer = none ∧
      (attemptResumeReconnect e s).serial = some ⟨true, some p⟩) := by
  constructor
  · intro hnc
    have hfail : (e.ports.contains p && e.connectSuccess) = false := by
      rw [hnc, Bool.false_and]
    unfold attemptResumeReconnect
    simp only [hp, hser, hsus, hconn, hfail, Bool.false_eq_true, if_false,
      ite_false]
    by_cases hex : RESUME_RETRY_LIMIT ≤ s.resumeReconnectAttempts + 1
    · rw [if_pos hex]
      refine ⟨by simp, by simp, ?_, fun _ => clearResume_rTimer _⟩
      intro hlt
      omega
    · rw [if_neg hex]
      refine ⟨by simp, by simp, ?_, fun hc => absurd hc hex⟩
      intro _
      exact sched_resume_armed_timer rfl _
  · intro hc hcs
    have hok : (e.ports.contains p && e.connectSuccess) = true := by
      rw [hc, hcs]; rfl
    unfold attemptResumeReconnect
    simp only [hp, hser, hsus, hconn, hok, Bool.false_eq_true, if_false,
      ite_false, if_true, ite_true]
    refine ⟨by simp, by simp, clearResume_rTimer _, by simp⟩

/-- C5 witness: with the pending port enumerated and a succeeding connect,
the first attempt clears the pending port, resets the counter and leaves no
timer. -/
theorem resume_attempt_behavior_witness :
    (attemptResumeReconnect ⟨["COM3"], true⟩ statePending).pendingResumePort = none ∧
    (attemptResumeReconnect ⟨["COM3"], true⟩ statePending).resumeReconnectAttempts = 0 ∧
    (attemptResumeReconnect ⟨["COM3"], true⟩ statePending).resumeReconnectTimer = none ∧
    (attemptResumeReconnect ⟨["COM3"], true⟩ statePending).serial =
      some ⟨true, some "COM3"⟩ :=
  (resume_attempt_behavior statePending "COM3" ⟨false, none⟩ ⟨["COM3"], true⟩
    rfl rfl rfl rfl).2 (by decide) rfl
